import Mathlib

/-!
Verification development for `src/lib/sdm-cportal.py` (captive-portal WiFi
onboarding tool).  The definitions below are a shallow embedding of the
portal's session state (`cpcontrol`), the HTTP request handler
(`sdmRequestHandler.do_GET`), the connectivity-test thread (`Netops.run`),
the watchdog (`ATimer.run`) and the top-level exit logic.  OS side effects
(syslog, shell commands, file writes, thread spawns) are recorded as an
explicit effect list; lookups that consult OS files (keymap/locale/country/
timezone tables, `ip addr` output, ping) are supplied by an oracle
environment `Env`.  Python library calls (`urllib.parse.parse_qs`,
`str.strip`, `int(...)`) are modelled character-exactly for ASCII input;
unicode-specific behavior (non-ASCII case mapping, multi-byte percent
escapes) is out of scope.
-/

namespace Cportal

/-! ## Character-list string toolkit (kernel-reduction friendly) -/

/-- Does `p` occur as a prefix of `l`? (`str.startswith` on char lists). -/
def prefixOf : List Char → List Char → Bool
  | [], _ => true
  | _ :: _, [] => false
  | a :: as, b :: bs => a = b && prefixOf as bs

/-- Does `sub` occur as a contiguous infix of `l`? (Python `in` on strings). -/
def infixOf (sub : List Char) : List Char → Bool
  | [] => sub.isEmpty
  | c :: rest => prefixOf sub (c :: rest) || infixOf sub rest

/-- `sub in s` for strings, as used by the route dispatch in `do_GET`. -/
def strContains (s sub : String) : Bool := infixOf sub.data s.data

/-- `s.startswith(pre)` for strings. -/
def strStartsWith (s pre : String) : Bool := prefixOf pre.data s.data

/-- Split a char list at every occurrence of the character `sep`,
mirroring Python `str.split(sep)` (empty pieces kept). -/
def splitOnChar (sep : Char) : List Char → List (List Char)
  | [] => [[]]
  | c :: rest =>
    let r := splitOnChar sep rest
    if c = sep then [] :: r
    else match r with
      | [] => [[c]]
      | g :: gs => (c :: g) :: gs

/-- Join char lists with a single separating character. -/
def intercalateChar (sep : Char) : List (List Char) → List Char
  | [] => []
  | [g] => g
  | g :: gs => g ++ sep :: intercalateChar sep gs

/-- Python `str.strip()` (whitespace at both ends removed; ASCII whitespace). -/
def pyStrip (s : String) : String :=
  String.mk (((s.data.dropWhile Char.isWhitespace).reverse.dropWhile
    Char.isWhitespace).reverse)

/-- Python `str.upper()` (ASCII case mapping). -/
def pyUpper (s : String) : String := String.mk (s.data.map Char.toUpper)

/-- Python `str.lower()` (ASCII case mapping). -/
def pyLower (s : String) : String := String.mk (s.data.map Char.toLower)

/-- Python `str.split()` with no argument: split on whitespace runs,
dropping empty pieces. -/
def pyWords (s : String) : List String :=
  ((s.data.splitOnP Char.isWhitespace).filter (· ≠ [])).map String.mk

/-! ## Python dynamic values

`cpcontrol.settings` is a Python dict whose values change type at runtime:
`dhcpwait` starts as the string `"0"` and becomes an `int` after form
validation; `validate`/`ckinternet` start as the Python bool `True` and
become strings once a query supplies them. -/

/-- A Python value as stored in the `settings` dict. -/
inductive PyVal where
  | str (s : String)
  | int (n : Int)
  | bool (b : Bool)
deriving DecidableEq, Repr

/-- Python `==` between a settings value and a string literal: values of
non-`str` type never compare equal to a string. -/
def pyEqStr : PyVal → String → Bool
  | .str s, t => s = t
  | _, _ => false

/-- Is `g` a non-empty all-ASCII-digit group? -/
def digitGroup (g : List Char) : Bool :=
  !g.isEmpty && g.all fun c => '0' ≤ c && c ≤ '9'

/-- Decimal value of a digit list. -/
def digitsToNat (l : List Char) : Nat :=
  l.foldl (fun a c => a * 10 + (c.toNat - 48)) 0

/-- Python `int(s)` on a string: surrounding whitespace stripped, one
optional sign, then digit groups separated by single underscores.
`none` models the `ValueError` branch. -/
def pyStrToInt : String → Option Int := fun s =>
  let t := (pyStrip s).data
  let core : Int → List Char → Option Int := fun sign body =>
    let groups := splitOnChar '_' body
    if groups.all digitGroup then
      some (sign * Int.ofNat (digitsToNat (groups.foldr (· ++ ·) [])))
    else none
  match t with
  | '-' :: body => core (-1) body
  | '+' :: body => core 1 body
  | body => core 1 body

/-- Python `int(v)` on a settings value (`int` is the identity on ints,
bools convert to 0/1, strings parse or raise). -/
def pyInt : PyVal → Option Int
  | .int n => some n
  | .bool b => some (if b then 1 else 0)
  | .str s => pyStrToInt s

/-! ## URL query parsing (`urllib.parse.urlparse` + `parse_qs`)

`parse_qs(..., keep_blank_values=True)[k][0]` is modelled by an association
list of decoded (name, value) pairs in document order, looked up by first
occurrence. Percent escapes are decoded byte-wise (exact for ASCII). -/

/-- The parsed query: pairs in document order. -/
def QItems := List (String × String)

/-- Value of a hex digit, if any. -/
def hexDigit : Char → Option Nat := fun c =>
  if '0' ≤ c && c ≤ '9' then some (c.toNat - 48)
  else if 'a' ≤ c && c ≤ 'f' then some (c.toNat - 87)
  else if 'A' ≤ c && c ≤ 'F' then some (c.toNat - 55)
  else none

/-- `urllib.parse.unquote_plus`: `+` becomes space, `%XX` decodes. -/
def unquoteChars : List Char → List Char
  | [] => []
  | '%' :: a :: b :: rest =>
    match hexDigit a, hexDigit b with
    | some x, some y => Char.ofNat (16 * x + y) :: unquoteChars rest
    | _, _ => '%' :: unquoteChars (a :: b :: rest)
  | '+' :: rest => ' ' :: unquoteChars rest
  | c :: rest => c :: unquoteChars rest

/-- String version of `unquote_plus`. -/
def unquotePlus (s : String) : String := String.mk (unquoteChars s.data)

/-- `urlparse(s).query`: the text after the first `?` of the
fragment-stripped input (empty when there is no `?`). -/
def urlQuery (s : String) : String :=
  let nofrag := (splitOnChar '#' s.data).headD []
  match splitOnChar '?' nofrag with
  | [] => ""
  | [_] => ""
  | _ :: rest => String.mk (intercalateChar '?' rest)

/-- `parse_qs(qs, keep_blank_values=True)` restricted to first values:
split on `&`, drop empty chunks, split each chunk at the first `=`
(a bare name keeps a blank value), percent-decode names and values. -/
def parseQS (qs : String) : QItems :=
  (splitOnChar '&' qs.data).filterMap fun chunk =>
    if chunk.isEmpty then none
    else
      match splitOnChar '=' chunk with
      | [] => none
      | [k] => some (unquotePlus (String.mk k), "")
      | k :: vs =>
        some (unquotePlus (String.mk k),
              unquotePlus (String.mk (intercalateChar '=' vs)))

/-- `k in query_items` / `query_items[k][0]`: first value bound to `k`. -/
def qget (q : QItems) (k : String) : Option String :=
  (List.find? (fun p => p.1 = k) q).map (fun p => p.2)

/-! ## Session state (`cpcontrol`, lines 301-320) -/

/-- The `settings` dict of `cpcontrol.__init__` (keys in insertion order:
ssid, password, wificountry, keymap, locale, timezone, dhcpwait, validate,
ckinternet, wifipower). -/
structure Settings where
  ssid : String
  password : String
  wificountry : String
  keymap : String
  locale : String
  timezone : String
  dhcpwait : PyVal
  validate : PyVal
  ckinternet : PyVal
  wifipower : PyVal
deriving DecidableEq, Repr

/-- Initial settings from `cpcontrol.__init__` (lines 304-305). -/
def initSettings : Settings :=
  { ssid := "", password := "", wificountry := "US", keymap := "",
    locale := "", timezone := "", dhcpwait := .str "0",
    validate := .bool true, ckinternet := .bool true,
    wifipower := .str "on" }

/-- A validation error reported through `_adderror`; one constructor per
`_adderror` call site in the `/formsubmit` validation block (lines 669-695).
The rendered message text of each is the corresponding f-string. -/
inductive VErr where
  | ssidBlank
  | passwordBlank
  | passwordLen
  | badKeymap (k : String)
  | badLocale (l : String)
  | badCountry (c : String)
  | badTimezone (t : String)
  | badDhcpwait (v : PyVal)
deriving DecidableEq, Repr

/-- A page or redirect written back to the browser; the HTML templating
(`htmsgs`) is treated as glue, each template is one constructor carrying
the data interpolated into it. -/
inductive Response where
  | greeting
  | webForm (ssidlist : String)
  | testinprogress
  | waitPage
  | notstartedPage
  | notValidated
  | giveupPage
  | errorPage (errs : List VErr)
  | redirect302 (location : String)
  | resultPage (connected iconnected cktested redolink : Bool)
      (ip ssid : String)
deriving DecidableEq, Repr

/-- An externally visible action of the handler / test thread. -/
inductive Effect where
  | log (msg : String)
  | resetTimer
  | resp (r : Response)
  | setLed (seq : String)
  | writeWpaConf (wlan : String)
  | runCmd (cmd : String)
  | sleep (secs : Nat)
  | spawnNetops
  | ping (addr : String) (count : Nat)
  | writeL10n (keymap locale timezone : String)
  | scanSsids
  | copyFile (src dst : String)
  | delFile (path : String)
deriving DecidableEq, Repr

/-- Whether a handler invocation finished normally or raised. -/
inductive HOutcome where
  | ok
  | exnAttributeError
deriving DecidableEq, Repr

/-- The mutable fields of the single `cpcontrol` instance `pd` that the
claims touch. `allerrors` is kept as the list of reported errors (the
source stores the `<br>`-joined, HTML-wrapped rendering of the same list,
built by `_adderror`). `atimerSet` models `pd.atimer is not None`. -/
structure PState where
  settings : Settings
  formdone : Bool
  inprogress : Bool
  isresult : Bool
  runflag : Bool
  retries : Int
  status : Int
  connected : Bool
  iconnected : Bool
  wlanip : String
  allerrors : List VErr
  defaults : String
  usenm : Bool
  netdev : String
  atimerSet : Bool
deriving DecidableEq, Repr

/-- State after `cpcontrol.__init__` plus the startup assignments of
`__main__`/`runserver` (`usenm := True` is set in `runserver`, line 934;
`netdev` defaults to `wlan0`; the watchdog is created before serving). -/
def initPState : PState :=
  { settings := initSettings, formdone := false, inprogress := false,
    isresult := false, runflag := true, retries := 5, status := 999,
    connected := false, iconnected := false, wlanip := "",
    allerrors := [], defaults := "", usenm := true, netdev := "wlan0",
    atimerSet := true }

/-- The `ledseq` dict of `cpcontrol.__init__` (line 303). -/
def ledseq : String → String
  | "APoff" => "----"
  | "APon" => "-.--"
  | "Testing" => "--.-"
  | "ResultGood" => "...."
  | "ResultBad" => "---."
  | "Cleanup" => "...-"
  | _ => ""

/-- The `errors` dict of `cpcontrol.__init__` (line 306): exit code for
each named outcome. -/
def errCode : String → Int
  | "success" => 0
  | "noconnect" => 1
  | "nointernet" => 2
  | "manualgiveup" => 3
  | "notestdone" => 4
  | _ => 999

/-- `sdmRequestHandler._adderror` (lines 604-608): append a message to the
accumulated error string, `<br>`-separated. -/
def addError (oldstring newstring : String) : String :=
  if oldstring = "" then newstring
  else oldstring ++ "<br>" ++ newstring

/-- Attributes resolvable on a `cpcontrol` instance at serving time:
instance attributes assigned in `__init__` (lines 303-320) and in
`__main__`/`runserver`/`do_GET`, plus the class methods.  Used to decide
whether `self.pd.<name>` raises `AttributeError`. -/
def cpcontrolAttrs : List String :=
  ["ledseq", "settings", "errors", "sdm", "connected", "iconnected",
   "isresult", "runflag", "usenm", "uapname", "formdone", "inprogress",
   "debug", "l10nhandler", "defaults", "allerrors", "wlanip", "apip",
   "apssid", "logmsg", "facname", "netns", "apname", "netdev", "apdev",
   "phydev", "httpd", "args", "pdmsgs", "leds", "netops", "dhcp",
   "atimer", "retries", "timeout", "status", "hostname", "sdndrunning",
   "getwlanpm", "writenetconfig", "writewpaconf", "writeapwpaconf",
   "writel10n"]

/-- Does attribute lookup on the `cpcontrol` instance succeed? -/
def cpcontrolHasAttr (name : String) : Bool := cpcontrolAttrs.contains name

/-- Oracle environment for OS lookups performed during validation and the
connectivity test: the `grep`s over keymap/locale/country tables, the
timezone file check, `getwlanpm` output, the SSID scan, the per-poll
`ip -br addr` output and the `ping 1.1.1.1` result. -/
structure Env where
  keymapKnown : String → Bool
  localeKnown : String → Bool
  countryKnown : String → Bool
  tzKnown : String → Bool
  curpm : String
  ssidScan : String
  ipAt : Nat → String
  internetUp : Bool

/-! ## `/formsubmit`: settings merge, validation, transition
(`sdmRequestHandler.do_GET`, lines 649-731) -/

/-- One step of the copy loop (lines 651-652) for a string-typed key:
`if i in query_items: settings[i] = query_items[i][0].strip()`. -/
def mergeStr (q : QItems) (k : String) (old : String) : String :=
  match qget q k with
  | some v => pyStrip v
  | none => old

/-- Same copy step for a dynamically-typed key: the assigned value is the
stripped query string. -/
def mergeVal (q : QItems) (k : String) (old : PyVal) : PyVal :=
  match qget q k with
  | some v => .str (pyStrip v)
  | none => old

/-- The copy loop over all ten settings keys (lines 651-652). -/
def mergeQuery (q : QItems) (s : Settings) : Settings :=
  { ssid := mergeStr q "ssid" s.ssid,
    password := mergeStr q "password" s.password,
    wificountry := mergeStr q "wificountry" s.wificountry,
    keymap := mergeStr q "keymap" s.keymap,
    locale := mergeStr q "locale" s.locale,
    timezone := mergeStr q "timezone" s.timezone,
    dhcpwait := mergeVal q "dhcpwait" s.dhcpwait,
    validate := mergeVal q "validate" s.validate,
    ckinternet := mergeVal q "ckinternet" s.ckinternet,
    wifipower := mergeVal q "wifipower" s.wifipower }

/-- One step of the defaults loop (lines 657-662) for a string-typed key:
a non-blank default replaces the setting when the setting is blank or the
defaults line carries `override`. -/
def defStr (di : QItems) (fover : Bool) (k : String) (old : String) :
    String :=
  match qget di k with
  | some dv => if dv ≠ "" && (old = "" || fover) then pyStrip dv else old
  | none => old

/-- Same defaults step for a dynamically-typed key (`settings[i] == ""` is
Python equality against a string, false for int/bool values). -/
def defVal (di : QItems) (fover : Bool) (k : String) (old : PyVal) :
    PyVal :=
  match qget di k with
  | some dv =>
    if dv ≠ "" && (pyEqStr old "" || fover) then .str (pyStrip dv) else old
  | none => old

/-- The defaults-file block (lines 653-662): skipped when `pd.defaults`
is the empty string; otherwise the first line of the defaults file is
parsed like a URL and each settings key present there may be filled in. -/
def applyDefaults (defaults : String) (s : Settings) : Settings :=
  if defaults = "" then s
  else
    let di := parseQS (urlQuery defaults)
    let fover := (qget di "override").isSome
    { ssid := defStr di fover "ssid" s.ssid,
      password := defStr di fover "password" s.password,
      wificountry := defStr di fover "wificountry" s.wificountry,
      keymap := defStr di fover "keymap" s.keymap,
      locale := defStr di fover "locale" s.locale,
      timezone := defStr di fover "timezone" s.timezone,
      dhcpwait := defVal di fover "dhcpwait" s.dhcpwait,
      validate := defVal di fover "validate" s.validate,
      ckinternet := defVal di fover "ckinternet" s.ckinternet,
      wifipower := defVal di fover "wifipower" s.wifipower }

/-- Lines 663-664: `wificountry` upper-cased, `keymap` lower-cased. -/
def normalizeCase (s : Settings) : Settings :=
  { s with wificountry := pyUpper s.wificountry,
           keymap := pyLower s.keymap }

/-- Lines 669-670: blank SSID. -/
def ssidErrs (s : Settings) : List VErr :=
  if s.ssid = "" then [.ssidBlank] else []

/-- Lines 671-675: blank password, else length outside 8-63. -/
def passwordErrs (s : Settings) : List VErr :=
  if s.password = "" then [.passwordBlank]
  else if s.password.length < 8 || s.password.length > 63 then
    [.passwordLen]
  else []

/-- Lines 676-678: non-blank keymap greps `xorg.lst`. -/
def keymapErrs (env : Env) (s : Settings) : List VErr :=
  if s.keymap ≠ "" && !env.keymapKnown s.keymap then
    [.badKeymap s.keymap]
  else []

/-- Lines 679-681: non-blank locale greps `SUPPORTED`. -/
def localeErrs (env : Env) (s : Settings) : List VErr :=
  if s.locale ≠ "" && !env.localeKnown s.locale then
    [.badLocale s.locale]
  else []

/-- Lines 682-685: non-blank country is upper-cased again and greps
`iso3166.tab`. -/
def countryErrs (env : Env) (s : Settings) : List VErr :=
  if s.wificountry ≠ "" && !env.countryKnown (pyUpper s.wificountry) then
    [.badCountry (pyUpper s.wificountry)]
  else []

/-- Lines 686-688: non-blank timezone checks the zoneinfo file. -/
def tzErrs (env : Env) (s : Settings) : List VErr :=
  if s.timezone ≠ "" && !env.tzKnown s.timezone then
    [.badTimezone s.timezone]
  else []

/-- Lines 689-697: the dhcpwait field. A blank value (Python `== ""`,
false for non-string values) becomes the int 60 with no error; otherwise
`int(dwait)` either replaces the value by the parsed int (no error) or
fails, reporting "not numeric" and substituting 60. -/
def dhcpwaitStep (v : PyVal) : PyVal × List VErr :=
  if pyEqStr v "" then (.int 60, [])
  else
    match pyInt v with
    | some n => (.int n, [])
    | none => (.int 60, [.badDhcpwait v])

/-- The whole validation block (lines 666-697): the list of errors in
report order, plus the settings updates it performs (`wificountry`
re-upper-cased at line 683, `dhcpwait` replaced by an int). -/
def validateSettings (env : Env) (s : Settings) : Settings × List VErr :=
  let dw := dhcpwaitStep s.dhcpwait
  let wc := if s.wificountry ≠ "" then pyUpper s.wificountry
            else s.wificountry
  ({ s with wificountry := wc, dhcpwait := dw.1 },
   ssidErrs s ++ passwordErrs s ++ keymapErrs env s ++ localeErrs env s
     ++ countryErrs env s ++ tzErrs env s ++ dw.2)

/-- `sdmRequestHandler._notriesleft` (lines 635-640): set the status,
decrement the retry budget, and report whether it hit exactly zero. -/
def notriesleft (status : Int) (pd : PState) : PState × Bool :=
  let pd' := { pd with status := status, retries := pd.retries - 1 }
  (pd', pd'.retries = 0)

/-- `sdmRequestHandler._setstop` (lines 632-633). -/
def setstop (pd : PState) : PState := { pd with runflag := false }

/-- `updatewifi` (lines 802-809): its body begins with a bare `return`,
so every call returns immediately with no state change and no effect;
the promotion of `wpa_supplicant-<dev>.conf` to
`/etc/wpa_supplicant/wpa_supplicant.conf` (and the NetworkManager AP
restart) that follows the `return` is dead code. -/
def updatewifi (pd : PState) : PState × List Effect := (pd, [])

/-- The `/formsubmit` branch of `do_GET` (lines 649-731), taking the
parsed query.  Returns the new state and the effect trace (syslog calls
inside the defaults loop are omitted). -/
def formsubmit (env : Env) (q : QItems) (pd : PState) :
    PState × List Effect :=
  let s3 := normalizeCase (applyDefaults pd.defaults
    (mergeQuery q pd.settings))
  let v := validateSettings env s3
  let s4 := v.1
  let errs := v.2
  let pd1 := { pd with settings := s4, allerrors := errs }
  if errs ≠ [] then
    (pd1, [.log "Validate form data", .log "Errors were found",
           .log "Send error report message", .resp (.errorPage errs)])
  else
    let pd2 := { pd1 with formdone := true }
    if pyEqStr s4.validate "on" then
      let powerEffs : List Effect :=
        if pyEqStr s4.wifipower "on" && env.curpm ≠ "on" then
          [.runCmd ("iwconfig " ++ pd2.netdev ++ " power on")]
        else if pyEqStr s4.wifipower "off" && env.curpm = "on" then
          [.runCmd ("iwconfig " ++ pd2.netdev ++ " power off")]
        else []
      (pd2, [.log "Validate form data",
             .log "Form input validation complete"] ++ powerEffs ++
            [.log "Send redirect to testinprogress",
             .resp (.redirect302 "/testinprogress"), .sleep 3,
             .log "Start Validate WiFi configuration thread",
             .spawnNetops])
    else
      let pd3 := (notriesleft (errCode "notestdone") pd2).1
      (setstop pd3,
       [.log "Validate form data", .log "Form input validation complete",
        .log "Write WiFi configuration with No Validation",
        .writeWpaConf "", .log "Send notValidated message",
        .resp .notValidated])

/-! ## Connectivity test thread (`Netops.run`, lines 534-578) -/

/-- The token extraction
`' '.join(s.split()).split(' ')[2].split('/')[0]` applied to the
`ip -br -o -f inet addr show` output (line 556).  The source raises
`IndexError` when the output has fewer than three tokens; the model
yields `""` there (the oracle supplies well-formed outputs). -/
def parseIpOut (s : String) : String :=
  String.mk ((splitOnChar '/' ((pyWords s).getD 2 "").data).headD [])

/-- Lines 555-556: one poll of the interface; `myipaddr` only changes
when the query output is non-empty. -/
def pollAddr (env : Env) (i : Nat) (myip : String) : String :=
  if env.ipAt i ≠ "" then parseIpOut (env.ipAt i) else myip

/-- The DHCP wait loop body (lines 554-559), iterating `i` upward with
`fuel` iterations left; returns the final `myipaddr` and the number of
polls performed.  The loop breaks as soon as the held address is
non-empty and not link-local (`169.254`-prefixed). -/
def dhcpLoopGo (env : Env) : Nat → Nat → String → String × Nat
  | _, 0, myip => (myip, 0)
  | i, fuel + 1, myip =>
    let m := pollAddr env i myip
    if m ≠ "" && !strStartsWith m "169.254" then (m, 1)
    else
      let r := dhcpLoopGo env (i + 1) fuel m
      (r.1, r.2 + 1)

/-- `for i in range(1, dhcpwait):` (line 554): the loop runs at most
`dhcpwait - 1` iterations starting at `i = 1`. -/
def dhcpLoop (env : Env) (n : Int) : String × Nat :=
  dhcpLoopGo env 1 (n - 1).toNat ""

/-- `int(...)` extraction for the `range` bound; on the only path that
starts `Netops`, validation has already stored an `int` here. -/
def pyIntOr0 : PyVal → Int
  | .int n => n
  | .bool b => if b then 1 else 0
  | .str _ => 0

/-- `Netops.run` (lines 534-578).  A second start while a test is in
progress logs a warning and returns (lines 535-537).  Otherwise the new
configuration is applied, the DHCP loop polls for an address, and the
result is written back (`wlanip`, `iconnected`, `isresult`); any
non-empty final address — link-local included — takes the `ResultGood`
branch (line 561: `if self.pd.wlanip != ""`). -/
def netopsRun (env : Env) (pd : PState) : PState × List Effect :=
  if pd.inprogress then (pd, [.log "Test Inputs already in progress"])
  else
    let pd0 := { pd with isresult := false, inprogress := true }
    let ef0 : List Effect :=
      [.log ("Write wpa_supplicant-" ++ pd0.netdev ++ ".conf"),
       .setLed (ledseq "Testing"), .writeWpaConf pd0.netdev] ++
      (if pd0.usenm then
        [.runCmd "nmcli c reload",
         .runCmd ("nmcli c up " ++ pyLower pd0.settings.ssid)]
       else
        [.runCmd ("systemctl restart wpa_supplicant@" ++ pd0.netdev)])
    let r := dhcpLoop env (pyIntOr0 pd0.settings.dhcpwait)
    let pd1 := { pd0 with wlanip := r.1 }
    if pd1.wlanip ≠ "" then
      let withNet :=
        if pyEqStr pd1.settings.ckinternet "on" && pd1.wlanip ≠ "" then
          if env.internetUp then
            ({ pd1 with iconnected := true },
             [.log "Test Internet accessibility", .ping "1.1.1.1" 5,
              .log "Internet is Accessible"])
          else
            (pd1, [.log "Test Internet accessibility", .ping "1.1.1.1" 5,
                   .log "Internet is Not Accessible"])
        else (pd1, ([] : List Effect))
      let upd := updatewifi withNet.1
      let pd4 := { upd.1 with isresult := true }
      (pd4, ef0 ++ [.log ("Got IP address " ++ pd1.wlanip)] ++
        withNet.2 ++ upd.2 ++
        [.writeL10n pd4.settings.keymap pd4.settings.locale
           pd4.settings.timezone,
         .setLed (ledseq "ResultGood")])
    else
      let pd4 := { pd1 with isresult := true }
      (pd4, ef0 ++ [.log "Did not obtain an IP address",
        .writeL10n pd4.settings.keymap pd4.settings.locale
          pd4.settings.timezone,
        .setLed (ledseq "ResultBad")])

/-! ## `/checkresult` and the remaining routes of `do_GET` -/

/-- `sdmRequestHandler._buildresponse` (lines 610-626): the final result
page, rendered from the current connectivity fields. -/
def buildresponse (pd : PState) (redolink : Bool) : Response :=
  .resultPage pd.connected pd.iconnected
    (pyEqStr pd.settings.ckinternet "on") redolink pd.wlanip
    pd.settings.ssid

/-- The `/checkresult` branch of `do_GET` (lines 749-799).  Before the
form is done, the source evaluates `self.pd.notstarted_page(...)`; the
`cpcontrol` instance has no such attribute (the not-started template
lives on `htmsgs` as `pd.pdmsgs.notstarted_page`), so this branch raises
`AttributeError` instead of rendering the not-started page. -/
def checkresult (pd : PState) : PState × List Effect × HOutcome :=
  if !pd.formdone then
    if cpcontrolHasAttr "notstarted_page" then
      (pd, [.log "Checkresult called before form done",
            .resp .notstartedPage], .ok)
    else
      (pd, [.log "Checkresult called before form done"],
       .exnAttributeError)
  else if !pd.isresult then
    (pd, [.log "Checkresult called before result ready",
          .resp .waitPage], .ok)
  else
    let myip := pd.wlanip
    if myip = "" || strStartsWith myip "169.254" then
      let r := buildresponse pd true
      let pd1 := { pd with inprogress := false }
      let nr := notriesleft (errCode "noconnect") pd1
      let pd3 := if nr.2 then setstop nr.1 else nr.1
      (pd3, [.log "Failed to obtain an IP Address",
             .log "Send built response message", .resp r], .ok)
    else
      let pdc := { pd with connected := true }
      if pyEqStr pdc.settings.ckinternet "on" then
        if pdc.iconnected then
          let r := buildresponse pdc false
          let pd1 :=
            { pdc with status := errCode "success", inprogress := false }
          (setstop pd1,
           [.log "Internet is Accessible",
            .log "Send built response message", .resp r], .ok)
        else
          let r := buildresponse pdc false
          let pd1 := { pdc with inprogress := false }
          let nr := notriesleft (errCode "nointernet") pd1
          let pd3 := if nr.2 then setstop nr.1 else nr.1
          (pd3, [.log "Internet is Not Accessible",
                 .log "Send built response message", .resp r,
                 .setLed (ledseq "APon")], .ok)
      else
        let pd1 := { pdc with status := errCode "notestdone" }
        let r := buildresponse pd1 false
        let pd2 := { pd1 with inprogress := false }
        let pd3 := (notriesleft (errCode "notestdone") pd2).1
        let upd := updatewifi pd3
        (setstop upd.1,
         [.log "WiFi Operational, no Internet check done",
          .log "Send built response message", .resp r] ++ upd.2 ++
         [.writeL10n pd3.settings.keymap pd3.settings.locale
            pd3.settings.timezone,
          .setLed (ledseq "ResultGood")], .ok)

/-- `sdmRequestHandler.do_GET` (lines 642-800): watchdog reset, request
logging (suppressed for favicon), then the route dispatch by substring
match.  A path matching none of the routes reaches the end of the elif
chain and returns without writing any response. -/
def doGET (env : Env) (path : String) (pd : PState) :
    PState × List Effect × HOutcome :=
  let pre : List Effect :=
    (if pd.atimerSet then [.resetTimer]
     else [.log "atimer is None in do_GET"]) ++
    (if strContains path "favicon" then []
     else [.log ("Received message " ++ path)])
  let q := parseQS (urlQuery path)
  if strContains path "/formsubmit" then
    let r := formsubmit env q pd
    (r.1, pre ++ r.2, .ok)
  else if path = "/" || strContains path "/hotspot-detect.html" then
    (pd, pre ++ [.log ("Send greeting page to remote from query to "
      ++ path), .resp .greeting], .ok)
  else if strContains path "/testinprogress" then
    (pd, pre ++ [.log "Send testinprogress page",
      .resp .testinprogress], .ok)
  else if strContains path "/giveup" then
    (setstop { pd with status := errCode "manualgiveup" },
     pre ++ [.log "Received manual give up message",
       .resp .giveupPage], .ok)
  else if strContains path "/webform" then
    let getssids := ((qget q "findssids").map pyStrip).getD ""
    let ssidlist := if getssids = "on" then env.ssidScan else ""
    (pd, pre ++ (if getssids = "on" then [.scanSsids] else []) ++
      [.log "Send form page to remote", .resp (.webForm ssidlist)], .ok)
  else if strContains path "/checkresult" then
    let r := checkresult pd
    (r.1, pre ++ r.2.1, r.2.2)
  else
    (pd, pre, .ok)

/-! ## Watchdog, interrupt and process exit -/

/-- The expiry branch of `ATimer.run` (lines 436-443): status 900, the
HTTP socket is shut down and the run flag cleared. -/
def atimerFire (pd : PState) : PState :=
  { pd with status := 900, runflag := false }

/-- The `KeyboardInterrupt` handler of `__main__` (lines 1015-1018):
status 987, then `runclean` clears the run flag. -/
def kbInterrupt (pd : PState) : PState :=
  { pd with status := 987, runflag := false }

/-- `raise SystemExit(pd.status)` (line 1024): the process exit status is
the final `status` field. -/
def mainExitCode (pd : PState) : Int := pd.status

/-- The request-serving loop condition of `runserver` (line 941):
`while pd.runflag and pd.retries > 0`. -/
def serverLoopContinues (pd : PState) : Bool :=
  pd.runflag && decide (pd.retries > 0)

/-- Is an effect a promotion of the tested WiFi configuration to the
system-wide one — the file operations of `updatewifi`'s dead code? -/
def isPromote : Effect → Bool
  | .copyFile _ _ => true
  | .delFile _ => true
  | _ => false

/-- No promotion effect occurs in the trace. -/
def promoteFree (l : List Effect) : Bool := l.all fun e => !isPromote e

/-! ## Concrete inputs used by witnesses and counterexamples -/

/-- An oracle in which every keymap/locale/country/timezone lookup
succeeds, power management is on, and no IP is ever assigned. -/
def env0 : Env :=
  { keymapKnown := fun _ => true, localeKnown := fun _ => true,
    countryKnown := fun _ => true, tzKnown := fun _ => true,
    curpm := "on", ssidScan := "", ipAt := fun _ => "",
    internetUp := false }

/-- An oracle whose backend only ever assigns the link-local address
`169.254.1.5` (the `ip -br -o -f inet addr show` output format). -/
def envLL : Env :=
  { env0 with ipAt := fun _ => "wlan0 UP 169.254.1.5/16" }

/-- An oracle whose backend assigns the real address `192.168.1.50`
at the first poll. -/
def envIP : Env :=
  { env0 with ipAt := fun _ => "wlan0 UP 192.168.1.50/24", internetUp := true }

/-! ## Helper lemmas -/

/-- The DHCP wait loop performs at most `fuel` polls. -/
theorem dhcpLoopGo_count_le (env : Env) :
    ∀ (fuel i : Nat) (m : String),
      (dhcpLoopGo env i fuel m).2 ≤ fuel := by
  intro fuel
  induction fuel with
  | zero => intro i m; simp [dhcpLoopGo]
  | succ k ih =>
    intro i m
    simp only [dhcpLoopGo]
    split
    · exact Nat.succ_le_succ (Nat.zero_le k)
    · exact Nat.succ_le_succ (ih (i + 1) _)

/-- If the DHCP wait loop broke before exhausting its fuel, the address
it returned was accepted by the break test: non-empty and not
link-local. -/
theorem dhcpLoopGo_early_break (env : Env) :
    ∀ (fuel i : Nat) (m : String),
      (dhcpLoopGo env i fuel m).2 < fuel →
      (dhcpLoopGo env i fuel m).1 ≠ "" ∧
      strStartsWith (dhcpLoopGo env i fuel m).1 "169.254" = false := by
  intro fuel
  induction fuel with
  | zero => intro i m h; simp [dhcpLoopGo] at h
  | succ k ih =>
    intro i m h
    simp only [dhcpLoopGo] at h ⊢
    revert h
    split
    · rename_i hacc
      intro _
      rw [Bool.and_eq_true] at hacc
      exact ⟨of_decide_eq_true hacc.1, by simpa using hacc.2⟩
    · intro h
      exact ih (i + 1) _ (Nat.lt_of_succ_lt_succ h)

/-- The error branch of `/formsubmit`: when validation reports at least
one error, the handler answers with the single aggregated error page,
leaves `formdone` untouched and starts no connectivity test. -/
theorem formsubmit_error_branch (env : Env) (q : QItems) (pd : PState)
    (h : (validateSettings env (normalizeCase (applyDefaults pd.defaults
      (mergeQuery q pd.settings)))).2 ≠ []) :
    (formsubmit env q pd).1.formdone = pd.formdone ∧
    Effect.spawnNetops ∉ (formsubmit env q pd).2 ∧
    Effect.resp (Response.errorPage (validateSettings env (normalizeCase
      (applyDefaults pd.defaults (mergeQuery q pd.settings)))).2)
      ∈ (formsubmit env q pd).2 := by
  unfold formsubmit
  simp [h]

/-- Whatever the validation outcome, `/formsubmit` stores the merged,
validated settings in the session. -/
theorem formsubmit_settings (env : Env) (q : QItems) (pd : PState) :
    (formsubmit env q pd).1.settings =
    (validateSettings env (normalizeCase (applyDefaults pd.defaults
      (mergeQuery q pd.settings)))).1 := by
  unfold formsubmit
  by_cases h : (validateSettings env (normalizeCase (applyDefaults
      pd.defaults (mergeQuery q pd.settings)))).2 = []
  · by_cases h2 : pyEqStr (validateSettings env (normalizeCase
        (applyDefaults pd.defaults
          (mergeQuery q pd.settings)))).1.validate "on" = true <;>
      simp [h, h2, notriesleft, setstop]
  · simp [h]

/-- Membership of the per-field errors in the aggregated list. -/
theorem mem_errs_ssid (env : Env) (s : Settings) (h : s.ssid = "") :
    VErr.ssidBlank ∈ (validateSettings env s).2 := by
  simp [validateSettings, ssidErrs, h]

theorem mem_errs_password_blank (env : Env) (s : Settings)
    (h : s.password = "") :
    VErr.passwordBlank ∈ (validateSettings env s).2 := by
  simp [validateSettings, passwordErrs, h]

theorem mem_errs_password_len (env : Env) (s : Settings)
    (h1 : s.password ≠ "")
    (h2 : s.password.length < 8 ∨ s.password.length > 63) :
    VErr.passwordLen ∈ (validateSettings env s).2 := by
  have hb : (s.password.length < 8 || s.password.length > 63) = true := by
    rcases h2 with h | h <;> simp [h]
  simp [validateSettings, passwordErrs, h1, hb]

theorem mem_errs_keymap (env : Env) (s : Settings) (h1 : s.keymap ≠ "")
    (h2 : env.keymapKnown s.keymap = false) :
    VErr.badKeymap s.keymap ∈ (validateSettings env s).2 := by
  simp [validateSettings, keymapErrs, h1, h2]

theorem mem_errs_locale (env : Env) (s : Settings) (h1 : s.locale ≠ "")
    (h2 : env.localeKnown s.locale = false) :
    VErr.badLocale s.locale ∈ (validateSettings env s).2 := by
  simp [validateSettings, localeErrs, h1, h2]

theorem mem_errs_country (env : Env) (s : Settings)
    (h1 : s.wificountry ≠ "")
    (h2 : env.countryKnown (pyUpper s.wificountry) = false) :
    VErr.badCountry (pyUpper s.wificountry) ∈ (validateSettings env s).2 := by
  simp [validateSettings, countryErrs, h1, h2]

theorem mem_errs_timezone (env : Env) (s : Settings) (h1 : s.timezone ≠ "")
    (h2 : env.tzKnown s.timezone = false) :
    VErr.badTimezone s.timezone ∈ (validateSettings env s).2 := by
  simp [validateSettings, tzErrs, h1, h2]

theorem mem_errs_dhcpwait (env : Env) (s : Settings)
    (h1 : pyEqStr s.dhcpwait "" = false) (h2 : pyInt s.dhcpwait = none) :
    VErr.badDhcpwait s.dhcpwait ∈ (validateSettings env s).2 := by
  simp [validateSettings, dhcpwaitStep, h1, h2]

/-! ## Claim C1 -/

/-- C1: for every `/formsubmit` request whose merged settings are
malformed (blank SSID, or blank password, or password length outside
[8,63]), the validator reports an error for every offending field —
SSID, password, keymap, locale, country, timezone and dhcpwait alike —
in the single aggregated error response, the `formdone` flag stays
false (the workflow stays awaiting the form) and no connectivity test
thread is started. -/
theorem formsubmit_reports_all_errors (env : Env) (q : QItems)
    (pd : PState) (s : Settings)
    (hs : s = normalizeCase (applyDefaults pd.defaults
      (mergeQuery q pd.settings)))
    (hf : pd.formdone = false)
    (hm : s.ssid = "" ∨ s.password = "" ∨ s.password.length < 8 ∨
      s.password.length > 63) :
    (s.ssid = "" → VErr.ssidBlank ∈ (validateSettings env s).2) ∧
    (s.password = "" → VErr.passwordBlank ∈ (validateSettings env s).2) ∧
    (s.password ≠ "" → s.password.length < 8 ∨ s.password.length > 63 →
      VErr.passwordLen ∈ (validateSettings env s).2) ∧
    (s.keymap ≠ "" → env.keymapKnown s.keymap = false →
      VErr.badKeymap s.keymap ∈ (validateSettings env s).2) ∧
    (s.locale ≠ "" → env.localeKnown s.locale = false →
      VErr.badLocale s.locale ∈ (validateSettings env s).2) ∧
    (s.wificountry ≠ "" → env.countryKnown (pyUpper s.wificountry) = false →
      VErr.badCountry (pyUpper s.wificountry) ∈ (validateSettings env s).2) ∧
    (s.timezone ≠ "" → env.tzKnown s.timezone = false →
      VErr.badTimezone s.timezone ∈ (validateSettings env s).2) ∧
    (pyEqStr s.dhcpwait "" = false → pyInt s.dhcpwait = none →
      VErr.badDhcpwait s.dhcpwait ∈ (validateSettings env s).2) ∧
    (formsubmit env q pd).1.formdone = false ∧
    Effect.spawnNetops ∉ (formsubmit env q pd).2 ∧
    Effect.resp (Response.errorPage (validateSettings env s).2)
      ∈ (formsubmit env q pd).2 := by
  have hne : (validateSettings env s).2 ≠ [] := by
    rcases hm with h | h | h | h
    · exact List.ne_nil_of_mem (mem_errs_ssid env s h)
    · exact List.ne_nil_of_mem (mem_errs_password_blank env s h)
    · by_cases hb : s.password = ""
      · exact List.ne_nil_of_mem (mem_errs_password_blank env s hb)
      · exact List.ne_nil_of_mem (mem_errs_password_len env s hb (.inl h))
    · by_cases hb : s.password = ""
      · exact List.ne_nil_of_mem (mem_errs_password_blank env s hb)
      · exact List.ne_nil_of_mem (mem_errs_password_len env s hb (.inr h))
  have herr := formsubmit_error_branch env q pd (hs ▸ hne)
  exact ⟨mem_errs_ssid env s, mem_errs_password_blank env s,
    mem_errs_password_len env s, mem_errs_keymap env s,
    mem_errs_locale env s, mem_errs_country env s,
    mem_errs_timezone env s, mem_errs_dhcpwait env s,
    hf ▸ herr.1, herr.2.1, hs ▸ herr.2.2⟩

/-- Concrete query for the C1 witness: password supplied but too short,
SSID left at its blank initial value. -/
def q1c : QItems := [("password", "abc")]

/-- The merged settings the C1 witness validates. -/
def s1c : Settings :=
  normalizeCase (applyDefaults initPState.defaults
    (mergeQuery q1c initPState.settings))

/-- Witness for C1 at a concrete malformed submission with two offending
fields (blank SSID and short password): both errors are reported, the
form-done flag stays false and no test thread starts. -/
theorem formsubmit_reports_all_errors_witness :
    VErr.ssidBlank ∈ (validateSettings env0 s1c).2 ∧
    VErr.passwordLen ∈ (validateSettings env0 s1c).2 ∧
    (formsubmit env0 q1c initPState).1.formdone = false ∧
    Effect.spawnNetops ∉ (formsubmit env0 q1c initPState).2 ∧
    Effect.resp (Response.errorPage (validateSettings env0 s1c).2)
      ∈ (formsubmit env0 q1c initPState).2 := by
  have h := formsubmit_reports_all_errors env0 q1c initPState s1c rfl rfl
    (Or.inl (by decide))
  exact ⟨h.1 (by decide),
    h.2.2.1 (by decide) (Or.inl (by decide)),
    h.2.2.2.2.2.2.2.2.1, h.2.2.2.2.2.2.2.2.2.1, h.2.2.2.2.2.2.2.2.2.2⟩

/-! ## Claim C2 -/

/-- C2: every terminal outcome writes its fixed exit code into
`pd.status` and the process exits with that status: user cancellation
(`/giveup`) gives 3, watchdog expiry 900, keyboard interrupt 987, a
fully successful test 0, a failed link 1, unreachable internet 2, and
a run whose validation or internet check was skipped 4; the exit status
raised at the end of `__main__` is exactly the final `status` field. -/
theorem terminal_exit_codes (env : Env) (q : QItems) (pd : PState) :
    ((doGET env "/giveup" pd).1.status = 3 ∧
     (doGET env "/giveup" pd).1.runflag = false) ∧
    ((atimerFire pd).status = 900 ∧ (atimerFire pd).runflag = false) ∧
    ((kbInterrupt pd).status = 987 ∧ (kbInterrupt pd).runflag = false) ∧
    (pd.formdone = true → pd.isresult = true →
      pd.wlanip ≠ "" → strStartsWith pd.wlanip "169.254" = false →
      pyEqStr pd.settings.ckinternet "on" = true → pd.iconnected = true →
      (checkresult pd).1.status = 0 ∧ (checkresult pd).1.runflag = false) ∧
    (pd.formdone = true → pd.isresult = true →
      (pd.wlanip = "" ∨ strStartsWith pd.wlanip "169.254" = true) →
      (checkresult pd).1.status = 1) ∧
    (pd.formdone = true → pd.isresult = true →
      pd.wlanip ≠ "" → strStartsWith pd.wlanip "169.254" = false →
      pyEqStr pd.settings.ckinternet "on" = true → pd.iconnected = false →
      (checkresult pd).1.status = 2) ∧
    (pd.formdone = true → pd.isresult = true →
      pd.wlanip ≠ "" → strStartsWith pd.wlanip "169.254" = false →
      pyEqStr pd.settings.ckinternet "on" = false →
      (checkresult pd).1.status = 4 ∧
      (checkresult pd).1.runflag = false) ∧
    ((validateSettings env (normalizeCase (applyDefaults pd.defaults
        (mergeQuery q pd.settings)))).2 = [] →
      pyEqStr (validateSettings env (normalizeCase (applyDefaults
        pd.defaults (mergeQuery q pd.settings)))).1.validate "on" = false →
      (formsubmit env q pd).1.status = 4 ∧
      (formsubmit env q pd).1.runflag = false) ∧
    mainExitCode pd = pd.status := by
  refine ⟨?_, ⟨rfl, rfl⟩, ⟨rfl, rfl⟩, ?_, ?_, ?_, ?_, ?_, rfl⟩
  · constructor <;>
      simp [doGET, setstop, errCode, strContains, infixOf, prefixOf]
  · intro h1 h2 h3 h4 h5 h6
    constructor <;>
      simp [checkresult, h1, h2, h3, h4, h5, h6, setstop, errCode,
        buildresponse]
  · intro h1 h2 h3
    rcases h3 with h3 | h3 <;>
      simp [checkresult, h1, h2, h3, notriesleft, setstop, errCode,
        buildresponse] <;> split <;> simp [setstop]
  · intro h1 h2 h3 h4 h5 h6
    simp [checkresult, h1, h2, h3, h4, h5, h6, notriesleft, setstop,
      errCode, buildresponse]
    split <;> simp [setstop]
  · intro h1 h2 h3 h4 h5
    constructor <;>
      simp [checkresult, h1, h2, h3, h4, h5, notriesleft, setstop,
        errCode, buildresponse, updatewifi]
  · intro h1 h2
    constructor <;>
      simp [formsubmit, h1, h2, notriesleft, setstop, errCode]

/-- A session whose test connected and reached the internet. -/
def pdGood : PState :=
  { initPState with
      formdone := true, isresult := true, wlanip := "192.168.1.50",
      iconnected := true,
      settings := { initSettings with ckinternet := .str "on" } }

/-- A session whose test ended on a link-local address. -/
def pdLLr : PState :=
  { initPState with
      formdone := true, isresult := true, wlanip := "169.254.1.5" }

/-- A session whose test connected but could not reach the internet. -/
def pdNoNet : PState :=
  { initPState with
      formdone := true, isresult := true, wlanip := "192.168.1.50",
      iconnected := false,
      settings := { initSettings with ckinternet := .str "on" } }

/-- A session whose test connected with the internet check declined. -/
def pdNoCk : PState :=
  { initPState with
      formdone := true, isresult := true, wlanip := "192.168.1.50",
      settings := { initSettings with ckinternet := .str "off" } }

/-- A valid submission whose `validate` checkbox is unchecked (the key
is then absent from the query, so the setting keeps its non-string
initial value and never compares equal to "on"). -/
def qNoVal : QItems := [("ssid", "homenet"), ("password", "longpassword1")]

/-- Witness for C2: the giveup/watchdog/interrupt/exit conjuncts at the
initial state, the success path at a connected-and-internet state, the
no-IP path at a link-local state, and the no-validation form path at a
valid query whose `validate` box is unchecked. -/
theorem terminal_exit_codes_witness :
    (doGET env0 "/giveup" initPState).1.status = 3 ∧
    (atimerFire initPState).status = 900 ∧
    (kbInterrupt initPState).status = 987 ∧
    (checkresult pdGood).1.status = 0 ∧
    (checkresult pdLLr).1.status = 1 ∧
    (checkresult pdNoNet).1.status = 2 ∧
    (checkresult pdNoCk).1.status = 4 ∧
    (formsubmit env0 qNoVal initPState).1.status = 4 ∧
    mainExitCode initPState = 999 := by
  refine ⟨(terminal_exit_codes env0 [] initPState).1.1,
    (terminal_exit_codes env0 [] initPState).2.1.1,
    (terminal_exit_codes env0 [] initPState).2.2.1.1,
    ((terminal_exit_codes env0 [] pdGood).2.2.2.1 rfl rfl (by decide)
      (by decide) (by decide) rfl).1,
    (terminal_exit_codes env0 [] pdLLr).2.2.2.2.1 rfl rfl
      (Or.inr (by decide)),
    (terminal_exit_codes env0 [] pdNoNet).2.2.2.2.2.1 rfl rfl (by decide)
      (by decide) (by decide) rfl,
    ((terminal_exit_codes env0 [] pdNoCk).2.2.2.2.2.2.1 rfl rfl
      (by decide) (by decide) (by decide)).1,
    ((terminal_exit_codes env0 qNoVal initPState).2.2.2.2.2.2.2.1
      (by decide) (by decide)).1,
    (terminal_exit_codes env0 [] initPState).2.2.2.2.2.2.2.2⟩

/-! ## Claim C3 -/

/-- C3: starting the connectivity test while one is already in progress
(`pd.inprogress` set) is a no-op apart from the logged warning: the
session state is returned unchanged and the only effect is the warning —
no network reconfiguration, no polling, no result write-back. -/
theorem netops_second_start_noop (env : Env) (pd : PState)
    (h : pd.inprogress = true) :
    netopsRun env pd = (pd, [Effect.log "Test Inputs already in progress"]) := by
  simp [netopsRun, h]

/-- A session with a test already in flight. -/
def pdBusy : PState := { initPState with inprogress := true }

/-- Witness for C3 at a concrete in-progress state. -/
theorem netops_second_start_noop_witness :
    pdBusy.inprogress = true ∧
    netopsRun envIP pdBusy =
      (pdBusy, [Effect.log "Test Inputs already in progress"]) :=
  ⟨rfl, netops_second_start_noop envIP pdBusy rfl⟩

/-! ## Claim C9 -/

/-- C9: `updatewifi` returns immediately — its body starts with a bare
`return` — so every call leaves the session state untouched and performs
no effect; consequently no promotion of the tested per-interface
supplicant configuration to `/etc/wpa_supplicant/wpa_supplicant.conf`
(file delete + copy) ever appears in the trace of the connectivity test
or of the `/checkresult` handler, the two paths that invoke it. -/
theorem updatewifi_never_promotes :
    (∀ pd : PState, updatewifi pd = (pd, [])) ∧
    (∀ (env : Env) (pd : PState),
      promoteFree (netopsRun env pd).2 = true) ∧
    (∀ pd : PState, promoteFree (checkresult pd).2.1 = true) := by
  have hat : cpcontrolHasAttr "notstarted_page" = false := by decide
  refine ⟨fun pd => rfl, fun env pd => ?_, fun pd => ?_⟩
  · by_cases h1 : pd.inprogress
    · simp [netopsRun, h1, promoteFree, isPromote]
    · by_cases h2 : pd.usenm <;>
        rcases h3 : dhcpLoop env (pyIntOr0 pd.settings.dhcpwait)
          with ⟨ip, cnt⟩ <;>
        by_cases h4 : ip = "" <;>
        by_cases h5 : pyEqStr pd.settings.ckinternet "on" = true <;>
        by_cases h6 : env.internetUp <;>
        simp [netopsRun, updatewifi, h1, h2, h3, h4, h5, h6,
          promoteFree, isPromote]
  · by_cases h1 : pd.formdone <;> by_cases h2 : pd.isresult <;>
      by_cases h3 : pd.wlanip = "" <;>
      by_cases h4 : strStartsWith pd.wlanip "169.254" = true <;>
      by_cases h5 : pyEqStr pd.settings.ckinternet "on" = true <;>
      by_cases h6 : pd.iconnected <;>
      simp [checkresult, hat, notriesleft, setstop, updatewifi, h1, h2,
        h3, h4, h5, h6, promoteFree, isPromote]

/-! ## Claim C4 -/

/-- Post-validation settings with a dhcp-wait budget of 5 and the
internet check declined. -/
def sTest : Settings :=
  { initSettings with
      ssid := "homenet", password := "longpassword1",
      dhcpwait := .int 5, ckinternet := .str "off",
      validate := .str "on" }

/-- A validated session about to run the connectivity test. -/
def pdTest : PState :=
  { initPState with formdone := true, settings := sTest }

/-- Counterexample to C4 as stated: with a backend that only ever
assigns the link-local address `169.254.1.5`, the connectivity test
ends holding that address and takes its success branch — it logs
"Got IP address 169.254.1.5" and sets the `ResultGood` LED sequence,
i.e. it does treat the link-local address as a successfully obtained
IP (the loop's acceptance test and `/checkresult` reject it, but the
post-loop branch checks only non-emptiness, line 561). -/
theorem netops_linklocal_cex :
    (netopsRun envLL pdTest).1.wlanip = "169.254.1.5" ∧
    Effect.log "Got IP address 169.254.1.5" ∈ (netopsRun envLL pdTest).2 ∧
    Effect.setLed (ledseq "ResultGood") ∈ (netopsRun envLL pdTest).2 ∧
    Effect.setLed (ledseq "ResultBad") ∉ (netopsRun envLL pdTest).2 ∧
    strStartsWith (netopsRun envLL pdTest).1.wlanip "169.254" = true := by
  decide

/-- C4 as amended: the IP-assignment loop polls at most
`dhcp-wait - 1` times (hence at most the budget); whenever it stops
early, the address it accepted is non-empty and not link-local; the
`connected` flag is only ever set by `/checkresult` and stays unchanged
(hence false) when the recorded address is link-local, which is also
scored as the no-connect outcome; but the test itself treats any
non-empty final address — link-local included — as an obtained IP,
setting the `ResultGood` LED sequence. -/
theorem dhcp_poll_amended (env : Env) (n : Int) (pd : PState) :
    (dhcpLoop env n).2 ≤ (n - 1).toNat ∧
    (dhcpLoop env n).2 ≤ n.toNat ∧
    ((dhcpLoop env n).2 < (n - 1).toNat →
      (dhcpLoop env n).1 ≠ "" ∧
      strStartsWith (dhcpLoop env n).1 "169.254" = false) ∧
    (pd.formdone = true → pd.isresult = true →
      strStartsWith pd.wlanip "169.254" = true →
      (checkresult pd).1.connected = pd.connected ∧
      (checkresult pd).1.status = errCode "noconnect") ∧
    (pd.inprogress = false → (netopsRun env pd).1.wlanip ≠ "" →
      Effect.setLed (ledseq "ResultGood") ∈ (netopsRun env pd).2) := by
  refine ⟨dhcpLoopGo_count_le env _ 1 "", ?_, ?_, ?_, ?_⟩
  · exact le_trans (dhcpLoopGo_count_le env _ 1 "")
      (Int.toNat_le_toNat (by omega))
  · exact fun h => dhcpLoopGo_early_break env _ 1 "" h
  · intro h1 h2 h3
    constructor <;>
      simp [checkresult, h1, h2, h3, notriesleft, setstop, errCode,
        buildresponse] <;> split <;> simp [setstop]
  · intro h1 h2
    revert h2
    unfold netopsRun
    simp only [h1, Bool.false_eq_true, if_false, ite_not]
    rcases h3 : dhcpLoop env (pyIntOr0 pd.settings.dhcpwait)
      with ⟨ip, cnt⟩
    by_cases h4 : ip = "" <;>
      by_cases h5 : pyEqStr pd.settings.ckinternet "on" = true <;>
      by_cases h6 : env.internetUp <;>
      simp [h3, h4, h5, h6, updatewifi]

/-- Witness for C4-as-amended, discharging the early-stop hypothesis
with a backend that assigns `192.168.1.50` at the first of four polls,
and the link-local hypotheses with a backend stuck on `169.254.1.5`. -/
theorem dhcp_poll_amended_witness :
    (dhcpLoop envIP 5).2 < (5 - 1 : Int).toNat ∧
    (dhcpLoop envIP 5).1 = "192.168.1.50" ∧
    strStartsWith (dhcpLoop envIP 5).1 "169.254" = false ∧
    (checkresult pdLLr).1.connected = false ∧
    (checkresult pdLLr).1.status = 1 ∧
    Effect.setLed (ledseq "ResultGood") ∈ (netopsRun envLL pdTest).2 := by
  have h1 := (dhcp_poll_amended envIP 5 pdLLr).2.2.1 (by decide)
  have h2 := (dhcp_poll_amended envIP 5 pdLLr).2.2.2.1 rfl rfl (by decide)
  have h3 := (dhcp_poll_amended envLL 5 pdTest).2.2.2.2 rfl (by decide)
  exact ⟨by decide, by decide, h1.2, h2.1, h2.2, h3⟩

/-! ## Claim C5 -/

/-- C5 (evidence for the code bug): when `/checkresult` arrives before
the form was completed, the handler evaluates
`self.pd.notstarted_page(...)` although the `cpcontrol` instance has no
attribute of that name (the template lives on `htmsgs` and is rendered
with `pd.pdmsgs.<page>.format(...)` everywhere else), so this branch
raises `AttributeError` and writes no page at all; the still-waiting
and final-result branches do complete normally with their pages. -/
theorem checkresult_notstarted_raises (pd : PState) :
    (pd.formdone = false →
      (checkresult pd).2.2 = HOutcome.exnAttributeError ∧
      ∀ r, Effect.resp r ∉ (checkresult pd).2.1) ∧
    (pd.formdone = true → pd.isresult = false →
      (checkresult pd).2.2 = HOutcome.ok ∧
      Effect.resp Response.waitPage ∈ (checkresult pd).2.1) ∧
    (pd.formdone = true → pd.isresult = true →
      (checkresult pd).2.2 = HOutcome.ok) ∧
    cpcontrolHasAttr "notstarted_page" = false := by
  have hat : cpcontrolHasAttr "notstarted_page" = false := by decide
  refine ⟨?_, ?_, ?_, hat⟩
  · intro h
    constructor <;> simp [checkresult, h, hat]
  · intro h1 h2
    constructor <;> simp [checkresult, h1, h2]
  · intro h1 h2
    by_cases h3 : pd.wlanip = "" <;>
      by_cases h4 : strStartsWith pd.wlanip "169.254" = true <;>
      by_cases h5 : pyEqStr pd.settings.ckinternet "on" = true <;>
      by_cases h6 : pd.iconnected <;>
      simp [checkresult, h1, h2, h3, h4, h5, h6, notriesleft, setstop,
        updatewifi]

/-- Witness for C5 at the initial state: the very first `/checkresult`
raises instead of serving the not-started page. -/
theorem checkresult_notstarted_raises_witness :
    (checkresult initPState).2.2 = HOutcome.exnAttributeError ∧
    Effect.resp Response.notstartedPage ∉ (checkresult initPState).2.1 :=
  ⟨((checkresult_notstarted_raises initPState).1 rfl).1,
   ((checkresult_notstarted_raises initPState).1 rfl).2
     Response.notstartedPage⟩

/-! ## Claim C6 -/

/-- Counterexample to C6 as stated: the unknown path `/favicon.ico`
matches none of the routes, and the handler returns having written no
response at all — in particular not the greeting page (the `elif` chain
of `do_GET` has no final `else`). -/
theorem unknown_path_no_response_cex :
    (doGET env0 "/favicon.ico" initPState).2.1 = [Effect.resetTimer] ∧
    Effect.resp Response.greeting ∉
      (doGET env0 "/favicon.ico" initPState).2.1 ∧
    (doGET env0 "/favicon.ico" initPState).1 = initPState := by
  decide

/-- C6 as amended: a GET whose path matches none of the fixed routes
leaves the session state unchanged and produces no response whatsoever
(only the watchdog reset and request logging happen); it does not fall
through to the greeting page. -/
theorem unknown_path_no_response (env : Env) (path : String) (pd : PState)
    (h1 : strContains path "/formsubmit" = false) (h2 : path ≠ "/")
    (h3 : strContains path "/hotspot-detect.html" = false)
    (h4 : strContains path "/testinprogress" = false)
    (h5 : strContains path "/giveup" = false)
    (h6 : strContains path "/webform" = false)
    (h7 : strContains path "/checkresult" = false) :
    (doGET env path pd).1 = pd ∧
    (∀ r, Effect.resp r ∉ (doGET env path pd).2.1) ∧
    (doGET env path pd).2.2 = HOutcome.ok := by
  unfold doGET
  simp only [h1, h2, h3, h4, h5, h6, h7, Bool.false_eq_true, if_false,
    decide_eq_true_eq, Bool.false_or, Bool.or_self, decide_eq_false h2]
  refine ⟨rfl, ?_, rfl⟩
  intro r
  by_cases ha : pd.atimerSet <;>
    by_cases hf : strContains path "favicon" = true <;> simp [ha, hf]

/-- Witness for C6-as-amended at the concrete unknown path
`/favicon.ico`. -/
theorem unknown_path_no_response_witness :
    (doGET env0 "/favicon.ico" initPState).1 = initPState ∧
    Effect.resp Response.greeting ∉
      (doGET env0 "/favicon.ico" initPState).2.1 := by
  have h := unknown_path_no_response env0 "/favicon.ico" initPState
    (by decide) (by decide) (by decide) (by decide) (by decide)
    (by decide) (by decide)
  exact ⟨h.1, h.2.1 Response.greeting⟩

/-! ## Claim C7 -/

/-- A submission with a negative dhcp-wait value and every other field
valid. -/
def qNeg : QItems :=
  [("ssid", "homenet"), ("password", "longpassword1"),
   ("dhcpwait", "-5"), ("validate", "on"), ("ckinternet", "on"),
   ("wifipower", "on")]

/-- Counterexample to C7 as stated: the value `-5` does not parse as a
non-negative integer, yet `int("-5")` succeeds, so the submission
passes validation with no error at all: the form is accepted, the
session stores dhcpwait = -5 and the connectivity test is started. -/
theorem dhcpwait_negative_accepted_cex :
    pyStrToInt "-5" = some (-5) ∧
    (formsubmit env0 qNeg initPState).1.allerrors = [] ∧
    (formsubmit env0 qNeg initPState).1.formdone = true ∧
    (formsubmit env0 qNeg initPState).1.settings.dhcpwait =
      PyVal.int (-5) ∧
    Effect.spawnNetops ∈ (formsubmit env0 qNeg initPState).2 := by
  decide

/-- C7 as amended: a non-blank dhcp-wait value passes validation
exactly when Python `int(...)` accepts it — so any integer, negative
ones included, is accepted and stored as submitted; a blank value is
silently replaced by 60; only a value `int(...)` rejects yields the
"not numeric" validation error (with 60 substituted), in which case the
submission is rejected: the form-done flag is unchanged and no test
starts. -/
theorem dhcpwait_validation_amended (env : Env) (s : Settings) :
    (pyEqStr s.dhcpwait "" = true →
      dhcpwaitStep s.dhcpwait = (.int 60, [])) ∧
    (∀ n : Int, pyEqStr s.dhcpwait "" = false →
      pyInt s.dhcpwait = some n →
      dhcpwaitStep s.dhcpwait = (.int n, []) ∧
      (validateSettings env s).1.dhcpwait = .int n) ∧
    (pyEqStr s.dhcpwait "" = false → pyInt s.dhcpwait = none →
      dhcpwaitStep s.dhcpwait = (.int 60, [.badDhcpwait s.dhcpwait]) ∧
      VErr.badDhcpwait s.dhcpwait ∈ (validateSettings env s).2) ∧
    (∀ (q : QItems) (pd : PState),
      (validateSettings env (normalizeCase (applyDefaults pd.defaults
        (mergeQuery q pd.settings)))).2 ≠ [] →
      (formsubmit env q pd).1.formdone = pd.formdone ∧
      Effect.spawnNetops ∉ (formsubmit env q pd).2) := by
  refine ⟨?_, ?_, ?_, ?_⟩
  · intro h; simp [dhcpwaitStep, h]
  · intro n h1 h2
    constructor <;> simp [validateSettings, dhcpwaitStep, h1, h2]
  · intro h1 h2
    exact ⟨by simp [dhcpwaitStep, h1, h2], mem_errs_dhcpwait env s h1 h2⟩
  · intro q pd h
    exact ⟨(formsubmit_error_branch env q pd h).1,
      (formsubmit_error_branch env q pd h).2.1⟩

/-- Settings holding an unparsable dhcp-wait value. -/
def sBadWait : Settings := { initSettings with dhcpwait := .str "abc" }

/-- Settings holding the negative dhcp-wait value `-5`. -/
def sNegWait : Settings := { initSettings with dhcpwait := .str "-5" }

/-- Witness for C7-as-amended: `-5` is accepted and stored, `abc` is
rejected with the "not numeric" error. -/
theorem dhcpwait_validation_amended_witness :
    dhcpwaitStep sNegWait.dhcpwait = (.int (-5), []) ∧
    dhcpwaitStep sBadWait.dhcpwait =
      (.int 60, [.badDhcpwait sBadWait.dhcpwait]) ∧
    VErr.badDhcpwait sBadWait.dhcpwait ∈
      (validateSettings env0 sBadWait).2 := by
  have h1 := (dhcpwait_validation_amended env0 sNegWait).2.1 (-5)
    (by decide) (by decide)
  have h2 := (dhcpwait_validation_amended env0 sBadWait).2.2.1
    (by decide) (by decide)
  exact ⟨h1.1, h2.1, h2.2⟩

/-! ## Claim C8 -/

/-- C8: when an unsatisfactory terminal check (no IP, or no internet
when requested) decrements the retry budget from 1 to 0, the handler
clears the run flag, and the serving loop's condition
(`pd.runflag and pd.retries > 0`) is false, so no further request —
`/checkresult` polls included — is served; independently, a
non-positive retry budget alone already falsifies the loop
condition. -/
theorem retries_zero_stops_server (pd pd2 : PState)
    (hf : pd.formdone = true) (hr : pd.isresult = true)
    (h1 : pd.retries = 1) :
    ((pd.wlanip = "" ∨ strStartsWith pd.wlanip "169.254" = true) →
      (checkresult pd).1.retries = 0 ∧
      (checkresult pd).1.runflag = false ∧
      serverLoopContinues (checkresult pd).1 = false) ∧
    (pd.wlanip ≠ "" → strStartsWith pd.wlanip "169.254" = false →
      pyEqStr pd.settings.ckinternet "on" = true → pd.iconnected = false →
      (checkresult pd).1.retries = 0 ∧
      (checkresult pd).1.runflag = false ∧
      serverLoopContinues (checkresult pd).1 = false) ∧
    (pd2.retries ≤ 0 → serverLoopContinues pd2 = false) := by
  refine ⟨?_, ?_, ?_⟩
  · intro h3
    rcases h3 with h3 | h3 <;>
      refine ⟨?_, ?_, ?_⟩ <;>
      simp [checkresult, hf, hr, h1, h3, notriesleft, setstop,
        serverLoopContinues, errCode]
  · intro h3 h4 h5 h6
    refine ⟨?_, ?_, ?_⟩ <;>
      simp [checkresult, hf, hr, h1, h3, h4, h5, h6, notriesleft,
        setstop, serverLoopContinues, errCode]
  · intro h
    simp only [serverLoopContinues, Bool.and_eq_false_iff]
    right
    simpa using by omega

/-- A link-local result state whose retry budget is down to its last
unit. -/
def pdLast : PState := { pdLLr with retries := 1 }

/-- Witness for C8: the last-retry link-local poll stops the server. -/
theorem retries_zero_stops_server_witness :
    (checkresult pdLast).1.retries = 0 ∧
    (checkresult pdLast).1.runflag = false ∧
    serverLoopContinues (checkresult pdLast).1 = false ∧
    serverLoopContinues { pdLast with retries := 0 } = false := by
  have h := (retries_zero_stops_server pdLast
    { pdLast with retries := 0 } rfl rfl rfl).1 (Or.inr (by decide))
  have h2 := (retries_zero_stops_server pdLast
    { pdLast with retries := 0 } rfl rfl rfl).2.2 (by decide)
  exact ⟨h.1, h.2.1, h.2.2, h2⟩

/-! ## Claim C10 -/

/-- First submission of the C10 scenario: a good SSID with a too-short
password (validation fails, values are stored anyway). -/
def p1 : String := "/formsubmit?ssid=homenet&password=short"

/-- Second submission: the SSID field submitted blank (as a browser
does for an empty text input) with a good password. -/
def p2 : String := "/formsubmit?ssid=&password=longpassword1"

/-- Counterexample to C10 as stated: after the first (failed)
submission the session holds ssid = "homenet", but the second
submission, whose ssid field is present-but-blank, overwrites it with
"" (the copy loop tests only key presence, and with
`keep_blank_values=True` a blank field is present), so the previously
submitted value does not carry over and the validator reports a blank
SSID. -/
theorem blank_field_overwrite_cex :
    (doGET env0 p1 initPState).1.settings.ssid = "homenet" ∧
    (doGET env0 p1 initPState).1.formdone = false ∧
    (doGET env0 p2 (doGET env0 p1 initPState).1).1.settings.ssid = "" ∧
    VErr.ssidBlank ∈
      (doGET env0 p2 (doGET env0 p1 initPState).1).1.allerrors := by
  decide

/-- C10 as amended: every field present in the query — blank or not —
is copied (stripped) into the session settings before validation,
blank submitted values overwriting the previous ones (the defaults
file, when present, then refills blank fields); a field absent from the
query keeps its previous value; and the merged ssid/password values
persist in the session whatever the validation outcome. -/
theorem merge_persistence_amended (env : Env) (q : QItems) (pd : PState) :
    (∀ v, qget q "ssid" = some v →
      (mergeQuery q pd.settings).ssid = pyStrip v) ∧
    (qget q "ssid" = none →
      (mergeQuery q pd.settings).ssid = pd.settings.ssid) ∧
    (∀ v, qget q "password" = some v →
      (mergeQuery q pd.settings).password = pyStrip v) ∧
    (qget q "password" = none →
      (mergeQuery q pd.settings).password = pd.settings.password) ∧
    ((formsubmit env q pd).1.settings.ssid =
      (normalizeCase (applyDefaults pd.defaults
        (mergeQuery q pd.settings))).ssid ∧
     (formsubmit env q pd).1.settings.password =
      (normalizeCase (applyDefaults pd.defaults
        (mergeQuery q pd.settings))).password) := by
  refine ⟨?_, ?_, ?_, ?_, ?_⟩
  · intro v h; simp [mergeQuery, mergeStr, h]
  · intro h; simp [mergeQuery, mergeStr, h]
  · intro v h; simp [mergeQuery, mergeStr, h]
  · intro h; simp [mergeQuery, mergeStr, h]
  · refine ⟨?_, ?_⟩ <;> rw [formsubmit_settings] <;>
      simp [validateSettings]

/-- Witness for C10-as-amended at the two concrete submissions of the
counterexample: present fields (blank included) overwrite, absent
fields persist, and the merged values survive failed validation. -/
theorem merge_persistence_amended_witness :
    (mergeQuery (parseQS (urlQuery p1)) initPState.settings).ssid =
      "homenet" ∧
    (mergeQuery [("password", "x")] initPState.settings).ssid = "" ∧
    (formsubmit env0 (parseQS (urlQuery p1)) initPState).1.settings.ssid
      = "homenet" := by
  have h1 := (merge_persistence_amended env0 (parseQS (urlQuery p1))
    initPState).1 "homenet" (by decide)
  have h2 := (merge_persistence_amended env0 [("password", "x")]
    initPState).2.1 (by decide)
  have h3 := (merge_persistence_amended env0 (parseQS (urlQuery p1))
    initPState).2.2.2.2.1
  refine ⟨by simpa using h1, by simpa using h2, by rw [h3]; decide⟩

end Cportal
